import Mathlib

/-!
Verification of the review-platform core: a shallow embedding of the
review service's Postgres-backed store, its in-memory mock store, the
review orchestrating HTTP handlers, and the movie service's gRPC-facing
existence check, together with theorems settling the specification
claims about them.

Sources embedded:
* `review-service/internal/store/postgres_review_store.go`
  (`PostgresReviewStore` and `MockReviewStore`)
* `review-service/internal/api/handlers.go` (`ReviewHandler`)
* `review-service/internal/domain/review.go`
* `review-service/internal/clients/movie_service_client.go`
* `movie-service/internal/grpc/server.go`
* `movie-service/internal/api/handlers.go` (`MovieHandler.GetMovieByID`)

Modelling conventions: Go `string` is `String`; Go integer types are
`Int` (on the paths embedded here every value is small — ratings are
validated into [1,10] and page sizes are clamped into [1,50] — so
two's-complement wrap-around is unreachable and not modelled);
`time.Time` is an `Int` tick supplied by the caller; a fallible Go call
returns `Except`; the SQL `ORDER BY` executed by the database is
modelled as sorting the matching rows with the corresponding
lexicographic key; a Go map is an association list keyed uniquely, with
map iteration modelled as insertion order.
-/

namespace MovieApp

/-- Decidable equality of call results, for evaluating the models on
concrete inputs. -/
instance {ε α : Type} [DecidableEq ε] [DecidableEq α] :
    DecidableEq (Except ε α) := fun x y =>
  match x, y with
  | .ok a, .ok b =>
    if h : a = b then isTrue (by rw [h]) else isFalse (by simp [h])
  | .error a, .error b =>
    if h : a = b then isTrue (by rw [h]) else isFalse (by simp [h])
  | .ok _, .error _ => isFalse (by simp)
  | .error _, .ok _ => isFalse (by simp)

/-- One row of the `reviews` table / one `domain.Review` value
(`review-service/internal/domain/review.go`).  `username` and
`movieTitle` are the transient display fields: they are not columns of
the table and are populated only by enrichment. -/
structure Review where
  id : String
  movieID : String
  userID : String
  rating : Int
  comment : String
  createdAt : Int
  updatedAt : Int
  username : String
  movieTitle : String
deriving Repr, DecidableEq

/-- `store.ListReviewsParams`. -/
structure ListReviewsParams where
  page : Int
  pageSize : Int
  sortBy : String
deriving Repr, DecidableEq

/-- The review store's typed errors: `ErrDuplicateReview`,
`ErrReviewNotFound`, and the opaque wrapped storage errors. -/
inductive ReviewStoreError
  | duplicateReview
  | reviewNotFound
  | other
deriving Repr, DecidableEq

/-- `domain.AggregatedRating`.  The Go `float64` average is modelled as
an exact rational. -/
structure AggregatedRating where
  movieID : String
  averageRating : ℚ
  ratingCount : Int
deriving Repr, DecidableEq

/-! ## Postgres review store (`PostgresReviewStore`)

The database state is the list of rows of the `reviews` table, in
insertion order. -/

/-- Two rows collide on the `(movie_id, user_id)` uniqueness key. -/
def samePair (a b : Review) : Bool :=
  a.movieID == b.movieID && a.userID == b.userID

/-- `PostgresReviewStore.Create`.  The handler's `INSERT` persists
exactly the seven table columns, with `created_at`/`updated_at` set to
`time.Now()` (the `now` argument here).

Modelled from the spec: the `uq_user_movie_review` uniqueness
constraint over `(movie_id, user_id)` is declared in a database
migration that is not among the sources; per the spec's persisted
shape, the insert fails atomically exactly when a row with the same
pair is already present, and `Create` translates that constraint
violation (`pq` error 23505 on `uq_user_movie_review`) into
`ErrDuplicateReview`. -/
def pgCreate (db : List Review) (now : Int) (r : Review) :
    Except ReviewStoreError (List Review) :=
  let row := { r with createdAt := now, updatedAt := now,
                      username := "", movieTitle := "" }
  if db.any (fun q => samePair q row) then
    .error .duplicateReview
  else
    .ok (db ++ [row])

/-- A row as produced by scanning `SELECT id, movie_id, user_id,
rating, comment, created_at, updated_at` into a fresh `domain.Review`:
the two transient display fields are left at their zero value. -/
def selectRow (r : Review) : Review :=
  { r with username := "", movieTitle := "" }

/-- `ORDER BY created_at DESC` (the `recency` default). -/
def recencyRel (a b : Review) : Prop :=
  b.createdAt ≤ a.createdAt

/-- `ORDER BY rating DESC, created_at DESC`. -/
def ratingDescRel (a b : Review) : Prop :=
  b.rating < a.rating ∨ (a.rating = b.rating ∧ b.createdAt ≤ a.createdAt)

/-- `ORDER BY rating ASC, created_at DESC`. -/
def ratingAscRel (a b : Review) : Prop :=
  a.rating < b.rating ∨ (a.rating = b.rating ∧ b.createdAt ≤ a.createdAt)

instance : DecidableRel recencyRel := fun a b => by
  unfold recencyRel; exact inferInstance

instance : DecidableRel ratingDescRel := fun a b => by
  unfold ratingDescRel; exact inferInstance

instance : DecidableRel ratingAscRel := fun a b => by
  unfold ratingAscRel; exact inferInstance

/-- The page of rows produced by executing the select with the given
`ORDER BY` key: sort the matching rows, apply
`LIMIT pageSize OFFSET (page-1)*pageSize`, and scan each returned row
into a fresh struct. -/
def pagedRows (R : Review → Review → Prop) [DecidableRel R]
    (matching : List Review) (p : ListReviewsParams) : List Review :=
  ((((List.insertionSort R matching).drop
      ((p.page - 1) * p.pageSize).toNat).take
      p.pageSize.toNat).map selectRow)

/-- `PostgresReviewStore.GetReviewsByMovieID`: count the rows matching
the movie, return `([], 0)` when there are none, otherwise run the
select whose `ORDER BY` is `created_at DESC` by default,
`rating DESC, created_at DESC` for `"rating_desc"`, and
`rating ASC, created_at DESC` for `"rating_asc"`. -/
def pgGetReviewsByMovieID (db : List Review) (movieID : String)
    (p : ListReviewsParams) : List Review × Nat :=
  let matching := db.filter (fun r => r.movieID == movieID)
  if matching.length = 0 then ([], 0)
  else if p.sortBy = "rating_desc" then
    (pagedRows ratingDescRel matching p, matching.length)
  else if p.sortBy = "rating_asc" then
    (pagedRows ratingAscRel matching p, matching.length)
  else
    (pagedRows recencyRel matching p, matching.length)

/-- `PostgresReviewStore.GetReviewsByUserID`: as for the movie listing,
except that the only recognised sort key is `"rating_desc"`; every
other value of `SortBy` (including `"rating_asc"`) leaves the default
`created_at DESC` order. -/
def pgGetReviewsByUserID (db : List Review) (userID : String)
    (p : ListReviewsParams) : List Review × Nat :=
  let matching := db.filter (fun r => r.userID == userID)
  if matching.length = 0 then ([], 0)
  else if p.sortBy = "rating_desc" then
    (pagedRows ratingDescRel matching p, matching.length)
  else
    (pagedRows recencyRel matching p, matching.length)

/-- `PostgresReviewStore.GetAggregatedRatingByMovieID`:
`SELECT COALESCE(AVG(rating), 0), COUNT(rating) FROM reviews WHERE
movie_id = $1`.  `AVG` over zero rows is `NULL`, which `COALESCE`
turns into `0`; otherwise it is the exact rational mean. -/
def pgGetAggregatedRatingByMovieID (db : List Review) (movieID : String) :
    AggregatedRating :=
  let ratings : List Int := (db.filter (fun r => r.movieID == movieID)).map
    (fun r => r.rating)
  { movieID := movieID
    averageRating :=
      if ratings.length = 0 then 0
      else (ratings.sum : ℚ) / (ratings.length : ℚ)
    ratingCount := ratings.length }

/-- `PostgresReviewStore.Update`: `UPDATE reviews SET rating, comment,
updated_at WHERE id = $4 AND user_id = $5`; zero affected rows is
reported as `ErrReviewNotFound`. -/
def pgUpdate (db : List Review) (now : Int) (r : Review) :
    Except ReviewStoreError (List Review) :=
  if db.any (fun q => q.id == r.id && q.userID == r.userID) then
    .ok (db.map (fun q =>
      if q.id == r.id && q.userID == r.userID then
        { q with rating := r.rating, comment := r.comment, updatedAt := now }
      else q))
  else
    .error .reviewNotFound

/-- `PostgresReviewStore.Delete`: `DELETE FROM reviews WHERE id = $1
AND user_id = $2`; zero affected rows is reported as
`ErrReviewNotFound`. -/
def pgDelete (db : List Review) (reviewID userID : String) :
    Except ReviewStoreError (List Review) :=
  if db.any (fun q => q.id == reviewID && q.userID == userID) then
    .ok (db.filter (fun q => !(q.id == reviewID && q.userID == userID)))
  else
    .error .reviewNotFound

/-! ## In-memory mock review store (`MockReviewStore`)

The three Go maps are association lists keyed uniquely; a map `delete`
removes the key, and overwriting an entry replaces it in place. -/

/-- `MockReviewStore`: `reviews` keyed by review id, `reviewsByMovie`
keyed by movie id (append-ordered slices), and `nextReviewIdx` — the
duplicate-review index `map[movieID]map[userID]bool`, documented in the
source as being "for the ErrDuplicateReview check". -/
structure MockReviewStore where
  reviews : List (String × Review)
  reviewsByMovie : List (String × List Review)
  nextReviewIdx : List (String × List String)
deriving Repr, DecidableEq

/-- `NewMockReviewStore()`. -/
def mockEmpty : MockReviewStore := ⟨[], [], []⟩

/-- Replace the value at key `k` when present, otherwise append a new
entry whose value is `f none` (Go map assignment). -/
def updateAssoc {α : Type} (m : List (String × α)) (k : String)
    (f : Option α → α) : List (String × α) :=
  if (m.lookup k).isSome then
    m.map (fun kv => if kv.1 == k then (kv.1, f (some kv.2)) else kv)
  else
    m ++ [(k, f none)]

/-- Go `delete(m, k)`. -/
def removeKey {α : Type} (m : List (String × α)) (k : String) :
    List (String × α) :=
  m.filter (fun kv => kv.1 != k)

/-- `MockReviewStore.Create`.  The only check performed is on the
review id: the duplicate-(movie,user) check is commented out in the
source.  The duplicate index `nextReviewIdx` is still kept up to
date. -/
def mockCreate (m : MockReviewStore) (r : Review) :
    Except ReviewStoreError MockReviewStore :=
  if (m.reviews.lookup r.id).isSome then
    .error .other
  else
    .ok { reviews := m.reviews ++ [(r.id, r)]
          reviewsByMovie := updateAssoc m.reviewsByMovie r.movieID
            (fun o => o.getD [] ++ [r])
          nextReviewIdx := updateAssoc m.nextReviewIdx r.movieID
            (fun o =>
              let us := o.getD []
              if us.contains r.userID then us else us ++ [r.userID]) }

/-- `MockReviewStore.GetReviewsByMovieID`: no sorting (a TODO in the
source); pagination over the movie's append-ordered slice with
`start = (page-1)*pageSize` clamped below at `0`, a page starting at or
beyond the end returning the empty slice with the total, and the slice
end clamped to the total. -/
def mockGetReviewsByMovieID (m : MockReviewStore) (movieID : String)
    (p : ListReviewsParams) : List Review × Nat :=
  match m.reviewsByMovie.lookup movieID with
  | none => ([], 0)
  | some revs =>
    if revs.length = 0 then ([], 0)
    else
      let totalCount : Int := revs.length
      let start : Int := (p.page - 1) * p.pageSize
      let start : Int := if start < 0 then 0 else start
      if totalCount ≤ start then ([], revs.length)
      else
        let stop : Int := min (start + p.pageSize) totalCount
        ((revs.drop start.toNat).take (stop - start).toNat, revs.length)

/-- `MockReviewStore.GetReviewsByUserID`: collects every review of the
user from the `reviews` map (iteration modelled as insertion order) and
returns the full list with its length — the `params` are unused, the
source leaving sorting and pagination as a TODO. -/
def mockGetReviewsByUserID (m : MockReviewStore) (userID : String)
    (_p : ListReviewsParams) : List Review × Nat :=
  let userReviews := (m.reviews.map (fun kv => kv.2)).filter
    (fun r => r.userID == userID)
  (userReviews, userReviews.length)

/-- `MockReviewStore.GetAggregatedRatingByMovieID`: zero rating and
count when the movie has no slice (or an empty one); otherwise a loop
summing ratings and counting rows, then `sum / count`. -/
def mockGetAggregatedRatingByMovieID (m : MockReviewStore)
    (movieID : String) : AggregatedRating :=
  match m.reviewsByMovie.lookup movieID with
  | none => ⟨movieID, 0, 0⟩
  | some revs =>
    if revs.length = 0 then ⟨movieID, 0, 0⟩
    else
      let acc := revs.foldl
        (fun (acc : Int × Int) r => (acc.1 + r.rating, acc.2 + 1)) (0, 0)
      ⟨movieID, if 0 < acc.2 then (acc.1 : ℚ) / (acc.2 : ℚ) else 0, acc.2⟩

/-- `MockReviewStore.Update`: fails with `ErrReviewNotFound` only when
the review id is absent — the owning user is not checked (the source
marks the method "NOT FULLY IMPLEMENTED"); the stored entry is replaced
by a copy of the argument with a fresh `UpdatedAt`, and
`reviewsByMovie` is left untouched. -/
def mockUpdate (m : MockReviewStore) (now : Int) (r : Review) :
    Except ReviewStoreError MockReviewStore :=
  if (m.reviews.lookup r.id).isSome then
    .ok { m with reviews := m.reviews.map (fun kv =>
            if kv.1 == r.id then (kv.1, { r with updatedAt := now }) else kv) }
  else
    .error .reviewNotFound

/-- `MockReviewStore.Delete`: fails with `ErrReviewNotFound` only when
the review id is absent — the caller's `userID` is not checked against
the owner (that check is commented out in the source as a TODO).  The
row is removed from `reviews` and from the movie's slice (dropping the
slice's key when it empties), and the caller's `userID` is removed from
the duplicate index for the movie. -/
def mockDelete (m : MockReviewStore) (reviewID userID : String) :
    Except ReviewStoreError MockReviewStore :=
  match m.reviews.lookup reviewID with
  | none => .error .reviewNotFound
  | some reviewToDelete =>
    let movieID := reviewToDelete.movieID
    let reviewsByMovie :=
      match m.reviewsByMovie.lookup movieID with
      | none => m.reviewsByMovie
      | some revs =>
        let newRevs := revs.filter (fun rev => rev.id != reviewID)
        if 0 < newRevs.length then
          updateAssoc m.reviewsByMovie movieID (fun _ => newRevs)
        else
          removeKey m.reviewsByMovie movieID
    let nextReviewIdx :=
      match m.nextReviewIdx.lookup movieID with
      | none => m.nextReviewIdx
      | some us =>
        let us := us.filter (fun u => u != userID)
        if us.length = 0 then removeKey m.nextReviewIdx movieID
        else updateAssoc m.nextReviewIdx movieID (fun _ => us)
    .ok { reviews := m.reviews.filter (fun kv => kv.1 != reviewID)
          reviewsByMovie := reviewsByMovie
          nextReviewIdx := nextReviewIdx }

/-! ## Review orchestrating handlers (`ReviewHandler`)

The remote gateway calls are oracles: the outcome of the single
movie-existence call on a request is an `Except Unit Bool` (the
`MovieServiceClient.CheckMovieExists` result as seen by the handler:
either an error or the `exists` boolean), and the per-lookup
`GetUser` / `GetMovieInfo` facades are functions from the id to an
`Except Unit String` carrying the username / movie title. -/

/-- The caller identity hardcoded on the create path. -/
def hardcodedUserID : String := "3aeb2a43-616f-4d62-a5e4-958e0802a31e"

/-- `domain.CreateReviewRequest` (after JSON decoding). -/
structure CreateReviewRequest where
  movieID : String
  rating : Int
  comment : String
deriving Repr, DecidableEq

/-- A lowercase hexadecimal digit. -/
def isLowerHex (c : Char) : Bool :=
  c.isDigit || ('a' ≤ c && c ≤ 'f')

/-- The `uuid` validation tag: 8-4-4-4-12 lowercase hex groups. -/
def isUUID (s : String) : Bool :=
  let cs := s.toList
  cs.length == 36 &&
    (List.range 36).all (fun i =>
      if i == 8 || i == 13 || i == 18 || i == 23 then
        cs.getD i ' ' == '-'
      else
        isLowerHex (cs.getD i ' '))

/-- The `validate:"required,gte=1,lte=10"` tags on `Rating`
(`required` on an integer rejects the zero value). -/
def validRating (r : Int) : Bool :=
  r != 0 && 1 ≤ r && r ≤ 10

/-- `validator.StructCtx` over `CreateReviewRequest`: `MovieID` is
`required,uuid`, `Rating` is `required,gte=1,lte=10`, `Comment` is
`max=2000` (characters). -/
def validateCreateReview (req : CreateReviewRequest) : Bool :=
  req.movieID != "" && isUUID req.movieID && validRating req.rating &&
    req.comment.length ≤ 2000

/-- What `ReviewHandler.CreateReview` did with a request: the HTTP
status written, the resulting table state, and whether the movie
existence gate and the store insert were reached. -/
structure CreateOutcome where
  status : Nat
  db : List Review
  movieGateCalled : Bool
  storeCreateCalled : Bool
deriving Repr, DecidableEq

/-- `ReviewHandler.CreateReview`: validate (400 on violation, before
any remote or storage call); gate on `CheckMovieExists` (500 when the
call fails, 404 when it reports non-existence); insert through the
store (409 on `ErrDuplicateReview`, 500 on other storage errors, 201
with the row inserted on success).  `newID` is the generated UUID and
`now` the current time. -/
def createReview (db : List Review) (gate : Except Unit Bool)
    (req : CreateReviewRequest) (newID : String) (now : Int) :
    CreateOutcome :=
  if !validateCreateReview req then ⟨400, db, false, false⟩
  else
    match gate with
    | .error _ => ⟨500, db, true, false⟩
    | .ok false => ⟨404, db, true, false⟩
    | .ok true =>
      let review : Review :=
        ⟨newID, req.movieID, hardcodedUserID, req.rating, req.comment,
          now, now, "", ""⟩
      match pgCreate db now review with
      | .error .duplicateReview => ⟨409, db, true, true⟩
      | .error _ => ⟨500, db, true, true⟩
      | .ok db2 => ⟨201, db2, true, true⟩

/-- `page` query-parameter handling: non-positive (or unparsable,
which `Atoi` leaves at 0) becomes the default 1. -/
def clampPage (page : Int) : Int :=
  if page ≤ 0 then 1 else page

/-- `limit` query-parameter handling: non-positive becomes the default
10, values above 50 are clamped to 50. -/
def clampLimit (limit : Int) : Int :=
  if limit ≤ 0 then 10 else if 50 < limit then 50 else limit

/-- Per-row enrichment on the movie-listing path: a successful user
lookup fills `username`, a successful movie lookup fills `movieTitle`,
and a failed lookup leaves the corresponding field as it came from the
store. -/
def enrichRow (userSvc : String → Except Unit String)
    (movieSvc : String → Except Unit String) (rev : Review) : Review :=
  let rev1 :=
    match userSvc rev.userID with
    | .ok name => { rev with username := name }
    | .error _ => rev
  match movieSvc rev1.movieID with
  | .ok title => { rev1 with movieTitle := title }
  | .error _ => rev1

/-- A listing handler's response: HTTP status, enriched rows, and the
pagination metadata `{totalCount, page, pageSize}`. -/
structure ListOutcome where
  status : Nat
  reviews : List Review
  totalCount : Nat
  page : Int
  pageSize : Int
deriving Repr, DecidableEq

/-- `ReviewHandler.GetReviewsForMovie`: clamp the query parameters,
fetch the page from the store, enrich every row (lookup failures are
logged and skipped, never fatal), and respond 200. -/
def getReviewsForMovie (db : List Review)
    (userSvc movieSvc : String → Except Unit String) (movieID : String)
    (pageQ limitQ : Int) (sortBy : String) : ListOutcome :=
  let p : ListReviewsParams := ⟨clampPage pageQ, clampLimit limitQ, sortBy⟩
  let fetched := pgGetReviewsByMovieID db movieID p
  ⟨200, fetched.1.map (enrichRow userSvc movieSvc), fetched.2,
    p.page, p.pageSize⟩

/-- Per-row enrichment on the user-listing path: the username comes
from the single upfront user fetch, and a successful movie lookup
fills `movieTitle` (a failed one leaves it as it came from the
store). -/
def stampRow (name : String) (movieSvc : String → Except Unit String)
    (rev : Review) : Review :=
  let rev1 := { rev with username := name }
  match movieSvc rev1.movieID with
  | .ok title => { rev1 with movieTitle := title }
  | .error _ => rev1

/-- `ReviewHandler.GetReviewsByUserID`: first fetch the target user
from the User facade — a failure there is a terminal 404.  On success,
fetch the page, stamp every row with the fetched username, enrich each
row's movie title (failures non-fatal), and respond 200. -/
def getReviewsByUserID (db : List Review)
    (userSvc movieSvc : String → Except Unit String)
    (targetUserID : String) (pageQ limitQ : Int) (sortBy : String) :
    ListOutcome :=
  match userSvc targetUserID with
  | .error _ => ⟨404, [], 0, 0, 0⟩
  | .ok name =>
    let p : ListReviewsParams := ⟨clampPage pageQ, clampLimit limitQ, sortBy⟩
    let fetched := pgGetReviewsByUserID db targetUserID p
    ⟨200, fetched.1.map (stampRow name movieSvc), fetched.2,
      p.page, p.pageSize⟩

/-- The page of stored rows the movie-listing handler fetches for the
given query parameters, before enrichment. -/
def movieListingPage (db : List Review) (movieID : String)
    (pageQ limitQ : Int) (sortBy : String) : List Review :=
  (pgGetReviewsByMovieID db movieID
    ⟨clampPage pageQ, clampLimit limitQ, sortBy⟩).1

/-- The page of stored rows the user-listing handler fetches for the
given query parameters, before enrichment. -/
def userListingPage (db : List Review) (userID : String)
    (pageQ limitQ : Int) (sortBy : String) : List Review :=
  (pgGetReviewsByUserID db userID
    ⟨clampPage pageQ, clampLimit limitQ, sortBy⟩).1

/-- An aggregate-rating response: HTTP status and the payload when
successful. -/
structure AggOutcome where
  status : Nat
  rating : Option AggregatedRating
deriving Repr, DecidableEq

/-- `ReviewHandler.GetMovieAggregatedRating`: gate on
`CheckMovieExists` exactly as on the create path (500 when the call
fails, 404 on non-existence), then delegate to the store's
aggregation. -/
def getMovieAggregatedRating (db : List Review)
    (gate : Except Unit Bool) (movieID : String) : AggOutcome :=
  match gate with
  | .error _ => ⟨500, none⟩
  | .ok false => ⟨404, none⟩
  | .ok true => ⟨200, some (pgGetAggregatedRatingByMovieID db movieID)⟩

/-! ## Movie service (`movie-service`) -/

/-- `domain.MovieStatus`. -/
inductive MovieStatus
  | pendingApproval
  | approved
  | rejected
deriving Repr, DecidableEq

/-- The fields of `domain.Movie` relevant to the embedded endpoints. -/
structure Movie where
  id : String
  title : String
  releaseYear : Int
  status : MovieStatus
deriving Repr, DecidableEq

/-- `MovieStore.GetByID`: the row with the given primary key, if
any. -/
def movieGetByID (movies : List Movie) (movieID : String) : Option Movie :=
  movies.find? (fun m => m.id == movieID)

/-- gRPC status codes appearing on the embedded endpoints. -/
inductive GrpcStatus
  | invalidArgument
  | internal
deriving Repr, DecidableEq

/-- `grpc.Server.CheckMovieExists`: an empty id is `InvalidArgument`;
a missing row answers `exists = false`; any found row answers
`exists = true` regardless of its moderation status. -/
def checkMovieExists (movies : List Movie) (movieID : String) :
    Except GrpcStatus Bool :=
  if movieID == "" then .error .invalidArgument
  else
    match movieGetByID movies movieID with
    | some _ => .ok true
    | none => .ok false

/-- `movieServiceGRPCClient.CheckMovieExists` as seen by the review
handler: a gRPC error becomes a client error, a success carries the
`exists` boolean through. -/
def movieGateOf (r : Except GrpcStatus Bool) : Except Unit Bool :=
  match r with
  | .ok b => .ok b
  | .error _ => .error ()

/-- `MovieHandler.GetMovieByID` (public REST): 404 when the row is
absent, and also 404 — hiding the row's existence — when its status is
not `approved`; 200 with the movie otherwise. -/
def getMovieByID (movies : List Movie) (movieID : String) :
    Nat × Option Movie :=
  match movieGetByID movies movieID with
  | none => (404, none)
  | some m =>
    if m.status != MovieStatus.approved then (404, none)
    else (200, some m)

/-! ## Concrete fixtures used by the counterexamples and witnesses -/

/-- A bare stored row: empty comment, equal creation and update
times, display fields unset. -/
def mkRow (id movieID userID : String) (rating createdAt : Int) : Review :=
  ⟨id, movieID, userID, rating, "", createdAt, createdAt, "", ""⟩

/-- First review of movie `m1` by user `u1`. -/
def rowA : Review := mkRow "r1" "m1" "u1" 7 1

/-- A second, later review of the same movie `m1` by the same user
`u1`, under a fresh review id. -/
def rowB : Review := mkRow "r2" "m1" "u1" 5 2

/-- The mock store after creating `rowA` in an empty store. -/
def mockStoreA : MockReviewStore :=
  ⟨[("r1", rowA)], [("m1", [rowA])], [("m1", ["u1"])]⟩

/-- The mock store after additionally creating `rowB`: two rows for
the `(m1, u1)` pair. -/
def mockStoreAB : MockReviewStore :=
  ⟨[("r1", rowA), ("r2", rowB)], [("m1", [rowA, rowB])], [("m1", ["u1"])]⟩

/-- The mock store after `rowA` is deleted out from under its owner by
the caller `u2`: the row is gone, while the duplicate index still
records `u1`. -/
def mockStoreDel : MockReviewStore := ⟨[], [], [("m1", ["u1"])]⟩

/-- A syntactically valid create request (the movie id is a
well-formed UUID). -/
def reqValid : CreateReviewRequest := ⟨hardcodedUserID, 5, ""⟩

/-- The argument row of the non-owner mock update in C9. -/
def updRowArg : Review := mkRow "r1" "m1" "u2" 1 1

/-- The row `MockReviewStore.Update` stores for `updRowArg` at time 9. -/
def updRowStored : Review := ⟨"r1", "m1", "u2", 1, "", 1, 9, "", ""⟩

/-- Rating 3, earlier creation time (for the sort-order claims). -/
def rowAsc1 : Review := mkRow "a" "m1" "u1" 3 1

/-- Rating 5, later creation time, same user, different movie. -/
def rowAsc2 : Review := mkRow "b" "m2" "u1" 5 2

/-- Three reviews of movie `m` with ratings 2, 4, 6 (the spec's
aggregation example). -/
def dbAgg : List Review :=
  [mkRow "a" "m" "x" 2 1, mkRow "b" "m" "y" 4 2, mkRow "c" "m" "z" 6 3]

/-- A well-formed movie id distinct from any user id. -/
def movieIDc : String := "11111111-1111-4111-8111-111111111111"

/-- A stored movie that is not approved. -/
def pendingMovie : Movie := ⟨movieIDc, "Unreleased", 2030, .pendingApproval⟩

/-- A valid create request targeting `pendingMovie`. -/
def reqForPending : CreateReviewRequest := ⟨movieIDc, 5, ""⟩

/-! ## Claims -/

/-- **C1.** The claim demands that every conforming store — the
in-memory one included — reject a second create for an already
reviewed (movie, user) pair with `DuplicateReview` and insert nothing.
The Postgres store does (via the uniqueness constraint), but
`MockReviewStore.Create`'s duplicate check is commented out even
though its duplicate index is still maintained for exactly that check:
starting from the empty mock store, creating `rowA` and then `rowB` —
a second review for the same `(m1, u1)` pair under a fresh id — both
succeed, leaving two stored rows for the pair, where the Postgres
store's create answers `DuplicateReview`. -/
theorem C1_mock_create_accepts_duplicate_pair :
    mockCreate mockEmpty rowA = .ok mockStoreA ∧
    mockCreate mockStoreA rowB = .ok mockStoreAB ∧
    ((mockStoreAB.reviewsByMovie.lookup "m1").getD []).countP
      (fun r => r.movieID == "m1" && r.userID == "u1") = 2 ∧
    pgCreate [rowA] 2 rowB = .error .duplicateReview := by
  decide

/-- **C2.** Whenever the movie facade's existence check answers a
confirmed "does not exist", `CreateReview` responds 404 NotFound, the
table is unchanged, and the store insert is never reached. -/
theorem C2_gate_not_found (db : List Review) (req : CreateReviewRequest)
    (rid : String) (now : Int) (hv : validateCreateReview req = true) :
    createReview db (.ok false) req rid now = ⟨404, db, true, false⟩ := by
  simp [createReview, hv]

/-- Witness for C2 at a concrete valid request over the empty table. -/
theorem C2_gate_not_found_witness :
    createReview [] (.ok false) reqValid "rid" 0 = ⟨404, [], true, false⟩ :=
  C2_gate_not_found [] reqValid "rid" 0 (by decide)

/-- **C5.** The claim requires every listing — the mock store's
user listing included — to start its page at offset
`(page-1) × pageSize` and to answer a page beyond the result set with
an empty row list and the correct total.
`MockReviewStore.GetReviewsByUserID` ignores the pagination
parameters: in the (reachable) one-review store, requesting page 2
with page size 10 still returns the single review instead of an empty
page. -/
theorem C5_mock_user_listing_ignores_pagination :
    mockCreate mockEmpty rowA = .ok mockStoreA ∧
    mockGetReviewsByUserID mockStoreA "u1" ⟨2, 10, ""⟩ = ([rowA], 1) ∧
    (mockGetReviewsByUserID mockStoreA "u1" ⟨2, 10, ""⟩).1 ≠ [] := by
  decide

/-- **C7.** A create request whose rating lies outside [1,10] or whose
comment exceeds 2000 characters is answered 400 with neither the
movie-existence gate nor the store insert called and the table
unchanged; and the rating validation accepts exactly the ratings in
[1,10]. -/
theorem C7_validation_before_remote_calls :
    (∀ (db : List Review) (gate : Except Unit Bool)
      (req : CreateReviewRequest) (rid : String) (now : Int),
      req.rating < 1 ∨ 10 < req.rating ∨ 2000 < req.comment.length →
      createReview db gate req rid now = ⟨400, db, false, false⟩) ∧
    (∀ r : Int, validRating r = true ↔ 1 ≤ r ∧ r ≤ 10) := by
  constructor
  · intro db gate req rid now h
    have hv : validateCreateReview req = false := by
      rcases h with h | h | h
      · have hr : validRating req.rating = false := by
          simp only [validRating]
          simp only [Bool.and_eq_false_iff, decide_eq_false_iff_not]
          omega
        simp [validateCreateReview, hr]
      · have hr : validRating req.rating = false := by
          simp only [validRating]
          simp only [Bool.and_eq_false_iff, decide_eq_false_iff_not]
          omega
        simp [validateCreateReview, hr]
      · have hc : ¬ req.comment.length ≤ 2000 := by omega
        simp [validateCreateReview, hc]
    simp [createReview, hv]
  · intro r
    simp only [validRating, Bool.and_eq_true, bne_iff_ne,
      decide_eq_true_eq, ne_eq]
    omega

/-- Witness for C7: rating 11 and rating 0 are both rejected with no
gate call and no store call, while rating 5 passes the rating
validation. -/
theorem C7_validation_before_remote_calls_witness :
    createReview [] (.ok true) ⟨hardcodedUserID, 11, ""⟩ "rid" 0 =
      ⟨400, [], false, false⟩ ∧
    createReview [] (.ok true) ⟨hardcodedUserID, 0, ""⟩ "rid" 0 =
      ⟨400, [], false, false⟩ ∧
    validRating 5 = true := by
  refine ⟨?_, ?_, ?_⟩
  · exact C7_validation_before_remote_calls.1 [] (.ok true) _ "rid" 0
      (Or.inr (Or.inl (by decide)))
  · exact C7_validation_before_remote_calls.1 [] (.ok true) _ "rid" 0
      (Or.inl (by decide))
  · exact (C7_validation_before_remote_calls.2 5).mpr (by decide)

/-- **C8 (counterexample).** When the movie-existence call itself
fails on a valid create request, the handler responds 500 Internal
Server Error — not a 502-class (502–504) dependency status as the
claim states. -/
theorem C8_counterexample_gate_failure_not_502 :
    (createReview [] (.error ()) reqValid "rid" 0).status = 500 ∧
    ¬ (502 ≤ (createReview [] (.error ()) reqValid "rid" 0).status ∧
       (createReview [] (.error ()) reqValid "rid" 0).status ≤ 504) := by
  decide

/-- **C8 (amended).** When the movie facade existence call itself
fails, both the create path and the aggregate-rating path are fatal
with a 500 Internal Server Error response, and on the create path no
store write occurs. -/
theorem C8_gate_failure_fatal_500 :
    (∀ (db : List Review) (req : CreateReviewRequest) (rid : String)
      (now : Int),
      validateCreateReview req = true →
      createReview db (.error ()) req rid now = ⟨500, db, true, false⟩) ∧
    (∀ (db : List Review) (movieID : String),
      getMovieAggregatedRating db (.error ()) movieID = ⟨500, none⟩) := by
  constructor
  · intro db req rid now hv
    simp [createReview, hv]
  · intro db movieID
    rfl

/-- Witness for the amended C8 at concrete inputs. -/
theorem C8_gate_failure_fatal_500_witness :
    createReview [] (.error ()) reqValid "rid" 0 = ⟨500, [], true, false⟩ ∧
    getMovieAggregatedRating [] (.error ()) "m1" = ⟨500, none⟩ :=
  ⟨C8_gate_failure_fatal_500.1 [] reqValid "rid" 0 (by decide),
   C8_gate_failure_fatal_500.2 [] "m1"⟩

/-- **C9.** The claim requires update and delete to succeed only when
a stored row matches both the review id and the calling user, failing
with `NotFound` otherwise.  The Postgres store conforms (shown on the
same inputs), but the mock store checks only the review id — its
ownership check is commented out: the caller `u2` deletes `u1`'s
review `r1`, and a non-owner update of `r1` also succeeds, even
reassigning the stored row to `u2`. -/
theorem C9_mock_delete_ignores_ownership :
    rowA.userID ≠ "u2" ∧
    mockDelete mockStoreA "r1" "u2" = .ok mockStoreDel ∧
    mockStoreDel.reviews = [] ∧
    pgDelete [rowA] "r1" "u2" = .error .reviewNotFound ∧
    mockUpdate mockStoreA 9 updRowArg =
      .ok ⟨[("r1", updRowStored)], [("m1", [rowA])], [("m1", ["u1"])]⟩ ∧
    pgUpdate [rowA] 9 updRowArg = .error .reviewNotFound := by
  decide

/-- The mock aggregation loop accumulates exactly the rating sum and
the row count. -/
theorem foldl_sum_count (l : List Review) :
    ∀ s c : Int,
      l.foldl (fun (acc : Int × Int) r => (acc.1 + r.rating, acc.2 + 1))
        (s, c) =
      (s + (l.map (fun r => r.rating)).sum, c + l.length) := by
  induction l with
  | nil => intro s c; simp
  | cons x xs ih =>
    intro s c
    simp only [List.foldl_cons, ih, List.map_cons, List.sum_cons,
      List.length_cons, Prod.mk.injEq]
    constructor
    · ring
    · push_cast
      ring

/-- Unfolding of the Postgres aggregation (pure zeta reduction of the
definition). -/
theorem pgAgg_eq (db : List Review) (movieID : String) :
    pgGetAggregatedRatingByMovieID db movieID =
      ⟨movieID,
        if ((db.filter (fun r => r.movieID == movieID)).map
            (fun r => r.rating)).length = 0 then 0
        else ((((db.filter (fun r => r.movieID == movieID)).map
            (fun r => r.rating)).sum : Int) : ℚ) /
          ((((db.filter (fun r => r.movieID == movieID)).map
            (fun r => r.rating)).length : Nat) : ℚ),
        (((db.filter (fun r => r.movieID == movieID)).map
          (fun r => r.rating)).length : Int)⟩ := rfl

/-- Evaluation of the mock aggregation on a movie whose slice is
non-empty. -/
theorem mockAgg_cons (m : MockReviewStore) (movieID : String) (x : Review)
    (xs : List Review)
    (h : m.reviewsByMovie.lookup movieID = some (x :: xs)) :
    mockGetAggregatedRatingByMovieID m movieID =
      ⟨movieID, ((((x :: xs).map (fun r => r.rating)).sum : Int) : ℚ) /
        ((((x :: xs).length : Int)) : ℚ), ((x :: xs).length : Int)⟩ := by
  simp only [mockGetAggregatedRatingByMovieID, h]
  rw [if_neg (by simp : ¬ (x :: xs).length = 0)]
  rw [foldl_sum_count]
  simp only [zero_add]
  rw [if_pos (by exact_mod_cast Nat.succ_pos xs.length :
    (0 : Int) < ((x :: xs).length : Int))]

/-- **C6.** Both aggregation implementations return a count equal to
the number of stored ratings for the movie and an average equal to
`sum / count`, with an average of exactly 0 when the count is 0: the
Postgres query relative to the table's rows for the movie, and the
mock store relative to the movie's slice in its index.  On ratings
`[2, 4, 6]` the result is average 4 with count 3. -/
theorem C6_aggregate_average (db : List Review) (m : MockReviewStore)
    (movieID : String) :
    (pgGetAggregatedRatingByMovieID db movieID).ratingCount =
      ((db.filter (fun r => r.movieID == movieID)).length : Int) ∧
    (pgGetAggregatedRatingByMovieID db movieID).averageRating =
      (if (db.filter (fun r => r.movieID == movieID)).length = 0 then 0
       else
        ((((db.filter (fun r => r.movieID == movieID)).map
          (fun r => r.rating)).sum : Int) : ℚ) /
          ((db.filter (fun r => r.movieID == movieID)).length : ℚ)) ∧
    (mockGetAggregatedRatingByMovieID m movieID).ratingCount =
      ((((m.reviewsByMovie.lookup movieID).getD []).length : Int)) ∧
    (mockGetAggregatedRatingByMovieID m movieID).averageRating =
      (if ((m.reviewsByMovie.lookup movieID).getD []).length = 0 then 0
       else
        (((((m.reviewsByMovie.lookup movieID).getD []).map
          (fun r => r.rating)).sum : Int) : ℚ) /
          ((((m.reviewsByMovie.lookup movieID).getD []).length : ℚ))) ∧
    (pgGetAggregatedRatingByMovieID dbAgg "m").averageRating = 4 ∧
    (pgGetAggregatedRatingByMovieID dbAgg "m").ratingCount = 3 := by
  refine ⟨?_, ?_, ?_, ?_, ?_, ?_⟩
  · rw [pgAgg_eq]
    simp
  · rw [pgAgg_eq]
    simp
  · cases h : m.reviewsByMovie.lookup movieID with
    | none => simp [mockGetAggregatedRatingByMovieID, h]
    | some revs =>
      cases revs with
      | nil => simp [mockGetAggregatedRatingByMovieID, h]
      | cons x xs =>
        rw [mockAgg_cons m movieID x xs h]
        simp
  · cases h : m.reviewsByMovie.lookup movieID with
    | none => simp [mockGetAggregatedRatingByMovieID, h]
    | some revs =>
      cases revs with
      | nil => simp [mockGetAggregatedRatingByMovieID, h]
      | cons x xs =>
        rw [mockAgg_cons m movieID x xs h]
        rw [if_neg (by simp : ¬ ((some (x :: xs)).getD []).length = 0)]
        simp only [Option.getD_some, Int.cast_natCast]
  · have h2 : ((dbAgg.filter (fun r => r.movieID == "m")).map
        (fun r => r.rating)) = [2, 4, 6] := by decide
    rw [pgAgg_eq, h2]
    norm_num
  · have h2 : ((dbAgg.filter (fun r => r.movieID == "m")).map
        (fun r => r.rating)) = [2, 4, 6] := by decide
    rw [pgAgg_eq, h2]
    norm_num

/-- Enrichment keeps the row's identity, and a failed lookup leaves
the corresponding display field exactly as it came from the store. -/
theorem enrichRow_fields (u m : String → Except Unit String) (r : Review) :
    (enrichRow u m r).id = r.id ∧
    (u r.userID = .error () → (enrichRow u m r).username = r.username) ∧
    (m r.movieID = .error () → (enrichRow u m r).movieTitle = r.movieTitle) := by
  unfold enrichRow
  cases hu : u r.userID with
  | error e =>
    dsimp only
    cases hm : m r.movieID <;> simp [hm]
  | ok name =>
    dsimp only
    cases hm : m r.movieID <;> simp [hm]

/-- The user-listing enrichment keeps the row's identity, stamps the
upfront username, and a failed movie lookup leaves the title as it
came from the store. -/
theorem stampRow_fields (name : String) (m : String → Except Unit String)
    (rev : Review) :
    (stampRow name m rev).id = rev.id ∧
    (stampRow name m rev).username = name ∧
    (m rev.movieID = .error () →
      (stampRow name m rev).movieTitle = rev.movieTitle) := by
  unfold stampRow
  dsimp only
  cases hm : m rev.movieID <;> simp [hm]

/-- Every row of a fetched page has its display fields at their zero
value (they are not selected columns). -/
theorem mem_pagedRows_fields (R : Review → Review → Prop) [DecidableRel R]
    (l : List Review) (p : ListReviewsParams) :
    ∀ r ∈ pagedRows R l p, r.username = "" ∧ r.movieTitle = "" := by
  intro r hr
  unfold pagedRows at hr
  rcases List.mem_map.mp hr with ⟨a, _, rfl⟩
  exact ⟨rfl, rfl⟩

/-- Rows fetched by the movie listing have empty display fields. -/
theorem mem_pgMovie_fields (db : List Review) (movieID : String)
    (p : ListReviewsParams) :
    ∀ r ∈ (pgGetReviewsByMovieID db movieID p).1,
      r.username = "" ∧ r.movieTitle = "" := by
  intro r hr
  unfold pgGetReviewsByMovieID at hr
  dsimp only at hr
  by_cases h0 : (db.filter (fun x => x.movieID == movieID)).length = 0
  · rw [if_pos h0] at hr
    simp at hr
  · rw [if_neg h0] at hr
    by_cases h1 : p.sortBy = "rating_desc"
    · rw [if_pos h1] at hr
      exact mem_pagedRows_fields _ _ _ r hr
    · rw [if_neg h1] at hr
      by_cases h2 : p.sortBy = "rating_asc"
      · rw [if_pos h2] at hr
        exact mem_pagedRows_fields _ _ _ r hr
      · rw [if_neg h2] at hr
        exact mem_pagedRows_fields _ _ _ r hr

/-- Rows fetched by the user listing have empty display fields. -/
theorem mem_pgUser_fields (db : List Review) (userID : String)
    (p : ListReviewsParams) :
    ∀ r ∈ (pgGetReviewsByUserID db userID p).1,
      r.username = "" ∧ r.movieTitle = "" := by
  intro r hr
  unfold pgGetReviewsByUserID at hr
  dsimp only at hr
  by_cases h0 : (db.filter (fun x => x.userID == userID)).length = 0
  · rw [if_pos h0] at hr
    simp at hr
  · rw [if_neg h0] at hr
    by_cases h1 : p.sortBy = "rating_desc"
    · rw [if_pos h1] at hr
      exact mem_pagedRows_fields _ _ _ r hr
    · rw [if_neg h1] at hr
      exact mem_pagedRows_fields _ _ _ r hr

/-- **C3.** On both listing paths, per-row enrichment failure is
non-fatal: the response status is 200, every fetched row is present at
its position, and for each row whose User (resp. Movie) lookup failed
the username (resp. movie title) is the empty string; on the
user-listing path — whose per-row lookups are movie lookups only — the
username always carries the upfront fetch's value. -/
theorem C3_enrichment_failures_nonfatal :
    (∀ (db : List Review) (u m : String → Except Unit String)
       (movieID : String) (pageQ limitQ : Int) (sortBy : String),
      (getReviewsForMovie db u m movieID pageQ limitQ sortBy).status = 200 ∧
      (getReviewsForMovie db u m movieID pageQ limitQ sortBy).reviews.length =
        (movieListingPage db movieID pageQ limitQ sortBy).length ∧
      ∀ i (hb : i < (movieListingPage db movieID pageQ limitQ sortBy).length)
        (hi : i < (getReviewsForMovie db u m movieID pageQ limitQ
          sortBy).reviews.length),
        ((getReviewsForMovie db u m movieID pageQ limitQ
            sortBy).reviews.get ⟨i, hi⟩).id =
          ((movieListingPage db movieID pageQ limitQ sortBy).get ⟨i, hb⟩).id ∧
        (u ((movieListingPage db movieID pageQ limitQ
            sortBy).get ⟨i, hb⟩).userID = .error () →
          ((getReviewsForMovie db u m movieID pageQ limitQ
            sortBy).reviews.get ⟨i, hi⟩).username = "") ∧
        (m ((movieListingPage db movieID pageQ limitQ
            sortBy).get ⟨i, hb⟩).movieID = .error () →
          ((getReviewsForMovie db u m movieID pageQ limitQ
            sortBy).reviews.get ⟨i, hi⟩).movieTitle = "")) ∧
    (∀ (db : List Review) (u m : String → Except Unit String)
       (uid name : String) (pageQ limitQ : Int) (sortBy : String),
      u uid = .ok name →
      (getReviewsByUserID db u m uid pageQ limitQ sortBy).status = 200 ∧
      (getReviewsByUserID db u m uid pageQ limitQ sortBy).reviews.length =
        (userListingPage db uid pageQ limitQ sortBy).length ∧
      ∀ i (hb : i < (userListingPage db uid pageQ limitQ sortBy).length)
        (hi : i < (getReviewsByUserID db u m uid pageQ limitQ
          sortBy).reviews.length),
        ((getReviewsByUserID db u m uid pageQ limitQ
            sortBy).reviews.get ⟨i, hi⟩).id =
          ((userListingPage db uid pageQ limitQ sortBy).get ⟨i, hb⟩).id ∧
        ((getReviewsByUserID db u m uid pageQ limitQ
            sortBy).reviews.get ⟨i, hi⟩).username = name ∧
        (m ((userListingPage db uid pageQ limitQ
            sortBy).get ⟨i, hb⟩).movieID = .error () →
          ((getReviewsByUserID db u m uid pageQ limitQ
            sortBy).reviews.get ⟨i, hi⟩).movieTitle = "")) := by
  constructor
  · intro db u m movieID pageQ limitQ sortBy
    have hout : getReviewsForMovie db u m movieID pageQ limitQ sortBy =
        ⟨200, (movieListingPage db movieID pageQ limitQ sortBy).map
          (enrichRow u m),
         (pgGetReviewsByMovieID db movieID
           ⟨clampPage pageQ, clampLimit limitQ, sortBy⟩).2,
         clampPage pageQ, clampLimit limitQ⟩ := rfl
    refine ⟨by rw [hout], by rw [hout]; exact List.length_map _ _, ?_⟩
    intro i hb hi
    have hrow : (getReviewsForMovie db u m movieID pageQ limitQ
        sortBy).reviews.get ⟨i, hi⟩ =
        enrichRow u m
          ((movieListingPage db movieID pageQ limitQ sortBy).get ⟨i, hb⟩) := by
      simp only [List.get_eq_getElem, hout, List.getElem_map]
    have hbase := mem_pgMovie_fields db movieID
      ⟨clampPage pageQ, clampLimit limitQ, sortBy⟩
      ((movieListingPage db movieID pageQ limitQ sortBy).get ⟨i, hb⟩)
      (List.get_mem _ _ hb)
    rw [hrow]
    refine ⟨(enrichRow_fields u m _).1, fun hu => ?_, fun hm => ?_⟩
    · rw [(enrichRow_fields u m _).2.1 hu]
      exact hbase.1
    · rw [(enrichRow_fields u m _).2.2 hm]
      exact hbase.2
  · intro db u m uid name pageQ limitQ sortBy hu
    have hout : getReviewsByUserID db u m uid pageQ limitQ sortBy =
        ⟨200, (userListingPage db uid pageQ limitQ sortBy).map
          (stampRow name m),
         (pgGetReviewsByUserID db uid
           ⟨clampPage pageQ, clampLimit limitQ, sortBy⟩).2,
         clampPage pageQ, clampLimit limitQ⟩ := by
      unfold getReviewsByUserID
      rw [hu]
      rfl
    refine ⟨by rw [hout], by rw [hout]; exact List.length_map _ _, ?_⟩
    intro i hb hi
    have hrow : (getReviewsByUserID db u m uid pageQ limitQ
        sortBy).reviews.get ⟨i, hi⟩ =
        stampRow name m
          ((userListingPage db uid pageQ limitQ sortBy).get ⟨i, hb⟩) := by
      simp only [List.get_eq_getElem, hout, List.getElem_map]
    have hbase := mem_pgUser_fields db uid
      ⟨clampPage pageQ, clampLimit limitQ, sortBy⟩
      ((userListingPage db uid pageQ limitQ sortBy).get ⟨i, hb⟩)
      (List.get_mem _ _ hb)
    rw [hrow]
    refine ⟨(stampRow_fields name m _).1, (stampRow_fields name m _).2.1,
      fun hm => ?_⟩
    rw [(stampRow_fields name m _).2.2 hm]
    exact hbase.2

/-- Witness for C3: with every facade lookup failing, both listings
over a one-review table still answer 200. -/
theorem C3_enrichment_failures_nonfatal_witness :
    (getReviewsForMovie [rowA] (fun _ => .error ()) (fun _ => .error ())
      "m1" 1 10 "").status = 200 ∧
    (getReviewsByUserID [rowA] (fun _ => .ok "alice") (fun _ => .error ())
      "u1" 1 10 "").status = 200 :=
  ⟨(C3_enrichment_failures_nonfatal.1 [rowA] (fun _ => .error ())
      (fun _ => .error ()) "m1" 1 10 "").1,
   (C3_enrichment_failures_nonfatal.2 [rowA] (fun _ => .ok "alice")
      (fun _ => .error ()) "u1" "alice" 1 10 "" rfl).1⟩

instance : IsTrans Review recencyRel :=
  ⟨by intro a b c hab hbc; unfold recencyRel at *; omega⟩

instance : IsTotal Review recencyRel :=
  ⟨by intro a b; unfold recencyRel; omega⟩

instance : IsTrans Review ratingDescRel :=
  ⟨by intro a b c hab hbc; unfold ratingDescRel at *; omega⟩

instance : IsTotal Review ratingDescRel :=
  ⟨by intro a b; unfold ratingDescRel; omega⟩

instance : IsTrans Review ratingAscRel :=
  ⟨by intro a b c hab hbc; unfold ratingAscRel at *; omega⟩

instance : IsTotal Review ratingAscRel :=
  ⟨by intro a b; unfold ratingAscRel; omega⟩

/-- A fetched page is pairwise ordered by the `ORDER BY` relation it
was executed with, for any relation that only reads the persisted
columns. -/
theorem pairwise_pagedRows (R : Review → Review → Prop) [DecidableRel R]
    [IsTotal Review R] [IsTrans Review R]
    (hsel : ∀ a b, R a b → R (selectRow a) (selectRow b))
    (l : List Review) (p : ListReviewsParams) :
    (pagedRows R l p).Pairwise R := by
  unfold pagedRows
  have hs : (List.insertionSort R l).Pairwise R :=
    List.sorted_insertionSort R l
  have hsub : List.Sublist
      (((List.insertionSort R l).drop
        ((p.page - 1) * p.pageSize).toNat).take p.pageSize.toNat)
      (List.insertionSort R l) :=
    (List.take_sublist _ _).trans (List.drop_sublist _ _)
  exact (List.Pairwise.sublist hsub hs).map _ hsel

/-- **C4 (counterexample).** The claim says `rating_asc` sorts the user
listing by rating ascending.  On two reviews by `u1` with ratings 3
(earlier) and 5 (later), `GetReviewsByUserID` with
`sort_by = "rating_asc"` returns ratings `[5, 3]` — the key is not
recognised there and the order falls back to creation time descending,
which is not even non-decreasing in rating. -/
theorem C4_counterexample_user_rating_asc :
    ((pgGetReviewsByUserID [rowAsc1, rowAsc2] "u1"
      ⟨1, 10, "rating_asc"⟩).1.map (fun r => r.rating)) = [5, 3] ∧
    ¬ (pgGetReviewsByUserID [rowAsc1, rowAsc2] "u1"
      ⟨1, 10, "rating_asc"⟩).1.Pairwise (fun a b => a.rating ≤ b.rating) := by
  decide

/-- **C4 (amended).** The movie listing is ordered as the claim states
for all three sort keys (`recency`/default → creation time descending;
`rating_desc` → rating descending with creation-time-descending
tie-break; `rating_asc` → rating ascending with the same tie-break),
and the user listing likewise for `recency`/default and `rating_desc`;
but for the user listing `rating_asc` is not recognised and the page
falls back to creation time descending. -/
theorem C4_amended_sort_orders (db : List Review) (movieID userID : String)
    (p : ListReviewsParams) :
    (p.sortBy = "rating_desc" →
      (pgGetReviewsByMovieID db movieID p).1.Pairwise ratingDescRel ∧
      (pgGetReviewsByUserID db userID p).1.Pairwise ratingDescRel) ∧
    (p.sortBy = "rating_asc" →
      (pgGetReviewsByMovieID db movieID p).1.Pairwise ratingAscRel) ∧
    (p.sortBy ≠ "rating_desc" → p.sortBy ≠ "rating_asc" →
      (pgGetReviewsByMovieID db movieID p).1.Pairwise recencyRel ∧
      (pgGetReviewsByUserID db userID p).1.Pairwise recencyRel) ∧
    (p.sortBy = "rating_asc" →
      (pgGetReviewsByUserID db userID p).1.Pairwise recencyRel) := by
  refine ⟨fun h => ⟨?_, ?_⟩, fun h => ?_, fun h h2 => ⟨?_, ?_⟩, fun h => ?_⟩
  · unfold pgGetReviewsByMovieID
    dsimp only
    by_cases h0 : (db.filter (fun x => x.movieID == movieID)).length = 0
    · rw [if_pos h0]
      exact List.Pairwise.nil
    · rw [if_neg h0, if_pos h]
      exact pairwise_pagedRows _ (fun a b hab => hab) _ _
  · unfold pgGetReviewsByUserID
    dsimp only
    by_cases h0 : (db.filter (fun x => x.userID == userID)).length = 0
    · rw [if_pos h0]
      exact List.Pairwise.nil
    · rw [if_neg h0, if_pos h]
      exact pairwise_pagedRows _ (fun a b hab => hab) _ _
  · unfold pgGetReviewsByMovieID
    dsimp only
    by_cases h0 : (db.filter (fun x => x.movieID == movieID)).length = 0
    · rw [if_pos h0]
      exact List.Pairwise.nil
    · rw [if_neg h0, if_neg (by rw [h]; decide), if_pos h]
      exact pairwise_pagedRows _ (fun a b hab => hab) _ _
  · unfold pgGetReviewsByMovieID
    dsimp only
    by_cases h0 : (db.filter (fun x => x.movieID == movieID)).length = 0
    · rw [if_pos h0]
      exact List.Pairwise.nil
    · rw [if_neg h0, if_neg h, if_neg h2]
      exact pairwise_pagedRows _ (fun a b hab => hab) _ _
  · unfold pgGetReviewsByUserID
    dsimp only
    by_cases h0 : (db.filter (fun x => x.userID == userID)).length = 0
    · rw [if_pos h0]
      exact List.Pairwise.nil
    · rw [if_neg h0, if_neg h]
      exact pairwise_pagedRows _ (fun a b hab => hab) _ _
  · unfold pgGetReviewsByUserID
    dsimp only
    by_cases h0 : (db.filter (fun x => x.userID == userID)).length = 0
    · rw [if_pos h0]
      exact List.Pairwise.nil
    · rw [if_neg h0, if_neg (by rw [h]; decide)]
      exact pairwise_pagedRows _ (fun a b hab => hab) _ _

/-- Witness for the amended C4 at concrete inputs: a `rating_desc`
movie page is ordered by the descending-rating key, and a `rating_asc`
user page is ordered by creation time descending. -/
theorem C4_amended_sort_orders_witness :
    (pgGetReviewsByMovieID [rowAsc1, rowAsc2] "m1"
      ⟨1, 10, "rating_desc"⟩).1.Pairwise ratingDescRel ∧
    (pgGetReviewsByUserID [rowAsc1, rowAsc2] "u1"
      ⟨1, 10, "rating_asc"⟩).1.Pairwise recencyRel :=
  ⟨((C4_amended_sort_orders [rowAsc1, rowAsc2] "m1" "u1"
      ⟨1, 10, "rating_desc"⟩).1 rfl).1,
   (C4_amended_sort_orders [rowAsc1, rowAsc2] "m1" "u1"
      ⟨1, 10, "rating_asc"⟩).2.2.2 rfl⟩

/-- **C10.** `CheckMovieExists` answers `exists = true` for every
stored movie row regardless of its moderation status, while the public
`GetMovieByID` REST endpoint answers 404 for any stored row that is
not approved; and since the create and aggregate gates consume only
`CheckMovieExists`, a review is created (201) and a rating aggregated
(200) for such a movie. -/
theorem C10_exists_ignores_moderation_status :
    (∀ (movies : List Movie) (mid : String), mid ≠ "" →
      (∃ mv ∈ movies, mv.id = mid) →
      checkMovieExists movies mid = .ok true) ∧
    (∀ (movies : List Movie) (mid : String) (mv : Movie),
      movieGetByID movies mid = some mv → mv.status ≠ .approved →
      getMovieByID movies mid = (404, none)) ∧
    (∀ (movies : List Movie) (mv : Movie) (db : List Review)
       (req : CreateReviewRequest) (rid : String) (now : Int),
      validateCreateReview req = true →
      movieGetByID movies req.movieID = some mv →
      db.all (fun q =>
        !(q.movieID == req.movieID && q.userID == hardcodedUserID)) = true →
      (createReview db (movieGateOf (checkMovieExists movies req.movieID))
        req rid now).status = 201) ∧
    (∀ (movies : List Movie) (mv : Movie) (db : List Review) (mid : String),
      movieGetByID movies mid = some mv → mid ≠ "" →
      (getMovieAggregatedRating db
        (movieGateOf (checkMovieExists movies mid)) mid).status = 200) := by
  have hfind : ∀ (movies : List Movie) (mid : String),
      (∃ mv ∈ movies, mv.id = mid) →
      (movieGetByID movies mid).isSome = true := by
    intro movies mid ⟨mv, hmem, hid⟩
    unfold movieGetByID
    rw [List.find?_isSome]
    exact ⟨mv, hmem, by simp [hid]⟩
  refine ⟨?_, ?_, ?_, ?_⟩
  · intro movies mid hne hex
    unfold checkMovieExists
    rw [if_neg (by simpa using hne)]
    rcases Option.isSome_iff_exists.mp (hfind movies mid hex) with ⟨mv, hmv⟩
    rw [hmv]
  · intro movies mid mv hmv hst
    unfold getMovieByID
    rw [hmv]
    dsimp only
    rw [if_pos (by simpa using hst)]
  · intro movies mv db req rid now hv hmv hnodup
    have hne : req.movieID ≠ "" := by
      by_contra he
      rw [validateCreateReview, he] at hv
      simp at hv
    have hgate : checkMovieExists movies req.movieID = .ok true := by
      unfold checkMovieExists
      rw [if_neg (by simpa using hne), hmv]
    rw [hgate]
    unfold createReview movieGateOf
    rw [if_neg (by rw [hv]; decide)]
    dsimp only
    have hany : (db.any fun q => samePair q
        ⟨rid, req.movieID, hardcodedUserID, req.rating, req.comment,
          now, now, "", ""⟩) = false := by
      rw [List.any_eq_false]
      intro q hq
      have h2 := (List.all_eq_true.mp hnodup) q hq
      simp only [samePair]
      simp at h2 ⊢
      intro hqm
      rcases h2 with h3 | h3
      · exact absurd hqm h3
      · exact h3
    have hins : pgCreate db now
        ⟨rid, req.movieID, hardcodedUserID, req.rating, req.comment,
          now, now, "", ""⟩ =
        .ok (db ++ [⟨rid, req.movieID, hardcodedUserID, req.rating,
          req.comment, now, now, "", ""⟩]) := by
      unfold pgCreate
      dsimp only
      rw [if_neg (by simp [hany])]
    rw [hins]
  · intro movies mv db mid hmv hne
    have hgate : checkMovieExists movies mid = .ok true := by
      unfold checkMovieExists
      rw [if_neg (by simpa using hne), hmv]
    rw [hgate]
    rfl

/-- Witness for C10: a concrete pending movie is reported as existing,
its public endpoint answers 404, and a create and an aggregate against
it succeed. -/
theorem C10_exists_ignores_moderation_status_witness :
    checkMovieExists [pendingMovie] movieIDc = .ok true ∧
    getMovieByID [pendingMovie] movieIDc = (404, none) ∧
    (createReview [] (movieGateOf (checkMovieExists [pendingMovie] movieIDc))
      reqForPending "rid" 0).status = 201 ∧
    (getMovieAggregatedRating []
      (movieGateOf (checkMovieExists [pendingMovie] movieIDc))
      movieIDc).status = 200 := by
  refine ⟨?_, ?_, ?_, ?_⟩
  · exact C10_exists_ignores_moderation_status.1 [pendingMovie] movieIDc
      (by decide) ⟨pendingMovie, by simp, rfl⟩
  · exact C10_exists_ignores_moderation_status.2.1 [pendingMovie] movieIDc
      pendingMovie (by decide) (by decide)
  · exact C10_exists_ignores_moderation_status.2.2.1 [pendingMovie]
      pendingMovie [] reqForPending "rid" 0 (by decide) (by decide) (by decide)
  · exact C10_exists_ignores_moderation_status.2.2.2 [pendingMovie]
      pendingMovie [] movieIDc (by decide) (by decide)

/-! ## Supporting facts about the Postgres store (not themselves
claims): pagination metadata and the duplicate-pair behaviour. -/

/-- A page whose offset is at or beyond the result set is empty. -/
theorem pagedRows_eq_nil (R : Review → Review → Prop) [DecidableRel R]
    (l : List Review) (p : ListReviewsParams)
    (h : l.length ≤ ((p.page - 1) * p.pageSize).toNat) :
    pagedRows R l p = [] := by
  unfold pagedRows
  rw [List.drop_eq_nil_of_le (by rw [List.length_insertionSort]; exact h)]
  simp

/-- The Postgres listings return the total matching count independently
of the requested page, and an empty page when the offset
`(page-1) × pageSize` is at or beyond the result set. -/
theorem pg_pagination_metadata (db : List Review) (movieID userID : String)
    (p : ListReviewsParams) :
    (pgGetReviewsByMovieID db movieID p).2 =
      (db.filter (fun r => r.movieID == movieID)).length ∧
    (pgGetReviewsByUserID db userID p).2 =
      (db.filter (fun r => r.userID == userID)).length ∧
    ((db.filter (fun r => r.movieID == movieID)).length ≤
        ((p.page - 1) * p.pageSize).toNat →
      (pgGetReviewsByMovieID db movieID p).1 = []) ∧
    ((db.filter (fun r => r.userID == userID)).length ≤
        ((p.page - 1) * p.pageSize).toNat →
      (pgGetReviewsByUserID db userID p).1 = []) := by
  refine ⟨?_, ?_, fun hb => ?_, fun hb => ?_⟩
  · unfold pgGetReviewsByMovieID
    dsimp only
    by_cases h0 : (db.filter (fun x => x.movieID == movieID)).length = 0
    · rw [if_pos h0]
      exact h0.symm
    · rw [if_neg h0]
      by_cases h1 : p.sortBy = "rating_desc"
      · rw [if_pos h1]
      · rw [if_neg h1]
        by_cases h2 : p.sortBy = "rating_asc"
        · rw [if_pos h2]
        · rw [if_neg h2]
  · unfold pgGetReviewsByUserID
    dsimp only
    by_cases h0 : (db.filter (fun x => x.userID == userID)).length = 0
    · rw [if_pos h0]
      exact h0.symm
    · rw [if_neg h0]
      by_cases h1 : p.sortBy = "rating_desc"
      · rw [if_pos h1]
      · rw [if_neg h1]
  · unfold pgGetReviewsByMovieID
    dsimp only
    by_cases h0 : (db.filter (fun x => x.movieID == movieID)).length = 0
    · rw [if_pos h0]
    · rw [if_neg h0]
      by_cases h1 : p.sortBy = "rating_desc"
      · rw [if_pos h1]
        exact pagedRows_eq_nil _ _ _ hb
      · rw [if_neg h1]
        by_cases h2 : p.sortBy = "rating_asc"
        · rw [if_pos h2]
          exact pagedRows_eq_nil _ _ _ hb
        · rw [if_neg h2]
          exact pagedRows_eq_nil _ _ _ hb
  · unfold pgGetReviewsByUserID
    dsimp only
    by_cases h0 : (db.filter (fun x => x.userID == userID)).length = 0
    · rw [if_pos h0]
    · rw [if_neg h0]
      by_cases h1 : p.sortBy = "rating_desc"
      · rw [if_pos h1]
        exact pagedRows_eq_nil _ _ _ hb
      · rw [if_neg h1]
        exact pagedRows_eq_nil _ _ _ hb

/-- After a successful Postgres create, any second create for the same
(movie, user) pair — whatever its id, rating or time — fails with
`DuplicateReview`.  (Serialized by the store's atomic constrained
insert; in either order of two racing creates, the second to commit
fails.) -/
theorem pgCreate_second_create_duplicate (db db2 : List Review)
    (now now2 : Int) (r1 r2 : Review) (hpair : samePair r1 r2 = true)
    (h1 : pgCreate db now r1 = .ok db2) :
    pgCreate db2 now2 r2 = .error .duplicateReview := by
  unfold pgCreate at h1 ⊢
  dsimp only at h1 ⊢
  by_cases hd : (db.any fun q => samePair q
      { r1 with createdAt := now, updatedAt := now,
                username := "", movieTitle := "" }) = true
  · rw [if_pos hd] at h1
    exact absurd h1 (by simp)
  · rw [if_neg hd] at h1
    injection h1 with h1
    subst h1
    rw [if_pos ?pos]
    case pos =>
      simp only [List.any_append, List.any_cons, List.any_nil,
        Bool.or_eq_true]
      refine Or.inr (Or.inl ?_)
      simp [samePair] at hpair ⊢
      exact hpair

end MovieApp
